import Mathlib

/-!
Verification of the Coupang Partners crawler client (`src/crawler.py`).

The client is a `requests.Session` subclass with three operations:
`login`, `search_keyword`, `get_link`.  We embed it shallowly:

* HTTP is modelled by a `Server` function from requests to transport
  results; a request records method, url, headers, body and the
  redirect flag exactly as the Python code constructs them.
* The mutable session is a `CrawlerState` threaded explicitly; the
  cookie jar accumulates `Set-Cookie` pairs from every received
  response (as `requests.Session` does), the logger is a list of
  entries, and `sent` records every request issued, in order.
* Python dictionaries are association lists with last-wins lookup,
  so `\x7b**a, **b\x7d` is modelled by `a ++ b`.
* `raise_for_status` raises exactly for statuses in `[400, 600)`;
  exceptions become `Except.error`.
-/

/-- A JSON value, as produced by `response.json()` / consumed by `json.dumps`. -/
inductive JsonValue : Type where
  | null : JsonValue
  | bool : Bool → JsonValue
  | num : Int → JsonValue
  | str : String → JsonValue
  | arr : List JsonValue → JsonValue
  | obj : List (String × JsonValue) → JsonValue

/-- Last-wins lookup in an association list: the model of Python `dict`
access, where a later binding of the same key shadows an earlier one. -/
def dictGet {α : Type} (d : List (String × α)) (k : String) : Option α :=
  (d.reverse.find? (fun p => p.1 == k)).map Prod.snd

/-- Header dictionaries may bind a key to `None` (`requests` then omits the
header from the wire), mirroring `\x7b"X-Token": self.token\x7d` when
`self.token` is `None`. -/
abbrev HDict := List (String × Option String)

/-- The header value actually used on the wire for key `k`: a `none`-valued
binding means the header is absent. -/
def headerGet (d : HDict) (k : String) : Option String :=
  (dictGet d k).bind id

/-- Python truthiness of `headers or fallback` for an optional dict:
`None` and the empty dict are falsy. -/
def pyDictOr (h : Option HDict) (fallback : HDict) : HDict :=
  match h with
  | none => fallback
  | some x => if x.isEmpty then fallback else x

/-- `urllib.parse.quote_plus` safe characters: ASCII alphanumerics and `_.-~`. -/
def alwaysSafe (c : Char) : Bool :=
  c.isAlpha || c.isDigit || c == '_' || c == '.' || c == '-' || c == '~'

/-- Upper-case hex digit, as `urllib.parse.quote` emits. -/
def hexUpperDigit (n : Nat) : Char :=
  if n < 10 then Char.ofNat (48 + n) else Char.ofNat (55 + n)

/-- Two upper-case hex digits of a byte. -/
def byteHex (b : Nat) : String :=
  String.mk [hexUpperDigit (b / 16 % 16), hexUpperDigit (b % 16)]

/-- `urllib.parse.quote_plus`: spaces become `+`, safe characters pass
through, everything else is UTF-8 percent-encoded. -/
def quote_plus (s : String) : String :=
  s.data.foldl (fun acc c =>
    if c == ' ' then acc ++ "+"
    else if alwaysSafe c then acc.push c
    else acc ++ String.join (((String.toUTF8 (String.singleton c)).toList).map
      (fun b => "%" ++ byteHex b.toNat))) ""

/-- `urllib.parse.urlencode` with its default `quote_plus` quoting. -/
def urlencode (pairs : List (String × String)) : String :=
  String.intercalate "&" (pairs.map (fun p => quote_plus p.1 ++ "=" ++ quote_plus p.2))

/-- Lower-case hex digit, as `json.dumps` emits in `\u` escapes. -/
def hexLowerDigit (n : Nat) : Char :=
  if n < 10 then Char.ofNat (48 + n) else Char.ofNat (87 + n)

/-- Four lower-case hex digits. -/
def hex4 (n : Nat) : String :=
  String.mk [hexLowerDigit (n / 4096 % 16), hexLowerDigit (n / 256 % 16),
             hexLowerDigit (n / 16 % 16), hexLowerDigit (n % 16)]

/-- One character of a JSON string under `json.dumps` defaults
(`ensure_ascii=True`): short escapes, `\uXXXX` for controls and
non-ASCII, surrogate pairs beyond the BMP. -/
def escapeChar (c : Char) : String :=
  if c == '"' then "\\\""
  else if c == '\\' then "\\\\"
  else if c == '\n' then "\\n"
  else if c == '\t' then "\\t"
  else if c == '\r' then "\\r"
  else if c.toNat == 8 then "\\b"
  else if c.toNat == 12 then "\\f"
  else if c.toNat < 32 || c.toNat ≥ 127 then
    if c.toNat < 65536 then "\\u" ++ hex4 c.toNat
    else
      "\\u" ++ hex4 (55296 + (c.toNat - 65536) / 1024) ++
      "\\u" ++ hex4 (56320 + (c.toNat - 65536) % 1024)
  else String.singleton c

/-- A JSON string literal under `json.dumps` defaults. -/
def encodeJsonString (s : String) : String :=
  "\"" ++ String.join (s.data.map escapeChar) ++ "\""

mutual

/-- `json.dumps` with default separators. -/
def jsonDumps : JsonValue → String
  | JsonValue.null => "null"
  | JsonValue.bool b => if b then "true" else "false"
  | JsonValue.num n => toString n
  | JsonValue.str s => encodeJsonString s
  | JsonValue.arr xs => "[" ++ jsonDumpsArr xs ++ "]"
  | JsonValue.obj fs => "\x7b" ++ jsonDumpsObj fs ++ "\x7d"

/-- Array elements joined by `, `. -/
def jsonDumpsArr : List JsonValue → String
  | [] => ""
  | [x] => jsonDumps x
  | x :: y :: xs => jsonDumps x ++ ", " ++ jsonDumpsArr (y :: xs)

/-- Object members joined by `, `, each `key: value`. -/
def jsonDumpsObj : List (String × JsonValue) → String
  | [] => ""
  | [(k, v)] => encodeJsonString k ++ ": " ++ jsonDumps v
  | (k, v) :: f :: fs => encodeJsonString k ++ ": " ++ jsonDumps v ++ ", " ++ jsonDumpsObj (f :: fs)

end

/-- The two HTTP methods the crawler uses. -/
inductive Method : Type where
  | GET : Method
  | POST : Method
deriving DecidableEq

/-- Label used in the error-log message of a failed request. -/
def methodLabel : Method → String
  | Method.GET => "GET"
  | Method.POST => "POST"

/-- An HTTP request exactly as the Python code hands it to `requests`:
`body` is the `data=` string, `jsonData` the `json=` payload,
`allowRedirects` the `allow_redirects=` argument (with `none` for
Python `None`, which `requests` treats as falsy when deciding whether
to follow redirects).  The cookies `requests.Session` automatically
attaches from the accumulated jar are not part of this record — they
are no function of the client code under test; where a claim depends
on them, the cookie-aware transport (`CookieServer`, `doRequestC`)
passes the jar to the server alongside the request. -/
structure HttpRequest : Type where
  method : Method
  url : String
  headers : HDict
  body : Option String
  jsonData : Option JsonValue
  allowRedirects : Option Bool

/-- The final HTTP response the transport delivers: its status code, the
value `response.json()` parses to, and the cookies it sets (which
`requests.Session` folds into the jar before `raise_for_status` runs). -/
structure HttpResponse : Type where
  status : Nat
  json : JsonValue
  setCookies : List (String × String)

/-- The transport either delivers a final response or fails
(`requests.exceptions.RequestException` with no response at all). -/
inductive TransportResult : Type where
  | ok : HttpResponse → TransportResult
  | netError : String → TransportResult

/-- The environment: what the network answers to each request. -/
abbrev Server := HttpRequest → TransportResult

/-- Exceptions the crawler can surface: `requests.exceptions.RequestException`
(transport failure or `raise_for_status` on a 4xx/5xx), or a `KeyError`
from indexing the response JSON. -/
inductive CrawlerError : Type where
  | requestException : String → CrawlerError
  | keyError : String → CrawlerError
deriving DecidableEq

/-- Log severities the crawler uses. -/
inductive LogLevel : Type where
  | debug : LogLevel
  | error : LogLevel
deriving DecidableEq, BEq

/-- One logger record. -/
structure LogEntry : Type where
  level : LogLevel
  msg : String
deriving DecidableEq, BEq

/-- Number of error-severity records in a log. -/
def errorCount (log : List LogEntry) : Nat :=
  (log.filter (fun e => e.level == LogLevel.error)).length

/-- The mutable state of a `CoupangPartnersCrawler` instance: credentials,
the nullable token, the user agent, the session cookie jar, the logger
output, and (for specification purposes) the trace of issued requests. -/
structure CrawlerState : Type where
  username : String
  password : String
  token : Option String
  user_agent : String
  cookies : List (String × String)
  log : List LogEntry
  sent : List HttpRequest

def LOGIN_URL : String := "https://login.coupang.com/login/login.pang"
def LOGIN_PROCESS_URL : String := "https://login.coupang.com/login/loginProcess.pang"
def POSTLOGIN_URL : String := "https://partners.coupang.com/api/v1/postlogin"
def SEARCH_URL : String := "https://partners.coupang.com/api/v1/search"
def BANNER_URL : String := "https://partners.coupang.com/api/v1/banner/iframe/url"

def DEFAULT_USER_AGENT : String :=
  "Mozilla/5.0 (Linux; Android 13; Redmi Note 10 Pro) AppleWebKit/537.36 (KHTML, like Gecko) Chrome/101.0.0.0 Mobile Safari/537.36"

/-- `CoupangPartnersCrawler.__init__`: stores the credentials, a `None`
token, and the user agent (`user_agent or <default>`, so an empty
string also falls back). -/
def initCrawler (username password : String) (user_agent : Option String) : CrawlerState :=
  { username := username
    password := password
    token := none
    user_agent :=
      match user_agent with
      | none => DEFAULT_USER_AGENT
      | some ua => if ua.isEmpty then DEFAULT_USER_AGENT else ua
    cookies := []
    log := []
    sent := [] }

/-- `CoupangPartnersCrawler.__get_headers`: the default headers overridden
by the caller-supplied ones, `\x7b**default_headers, **(headers or \x7b\x7d)\x7d`. -/
def default_headers (ua : String) : HDict :=
  [("User-Agent", some ua),
   ("accept-language", some "ko,ko-KR;q=0.9,en;q=0.8,en-US;q=0.7")]

def get_headers (ua : String) (headers : Option HDict) : HDict :=
  default_headers ua ++ headers.getD []

/-- `CoupangPartnersCrawler.__get_token`: `self.cookies.get('AFATK')`. -/
def get_token (st : CrawlerState) : Option String :=
  dictGet st.cookies "AFATK"

/-- Message `raise_for_status` puts in its `HTTPError`. -/
def httpErrorMsg (status : Nat) : String :=
  toString status ++ " Error"

/-- The shared request path of `__get` and `__post`: issue the request,
fold any response cookies into the jar, run `raise_for_status`
(raises for statuses in `[400, 600)`), and on any
`RequestException` log one error record and re-raise. -/
def doRequest (server : Server) (st : CrawlerState) (req : HttpRequest) :
    Except CrawlerError HttpResponse × CrawlerState :=
  let st1 : CrawlerState := { st with sent := st.sent ++ [req] }
  match server req with
  | TransportResult.netError msg =>
      (Except.error (CrawlerError.requestException msg),
       { st1 with log := st1.log ++
           [⟨LogLevel.error, methodLabel req.method ++ " request failed: " ++ msg⟩] })
  | TransportResult.ok r =>
      let st2 : CrawlerState := { st1 with cookies := st1.cookies ++ r.setCookies }
      if 400 ≤ r.status ∧ r.status < 600 then
        (Except.error (CrawlerError.requestException (httpErrorMsg r.status)),
         { st2 with log := st2.log ++
             [⟨LogLevel.error, methodLabel req.method ++ " request failed: " ++ httpErrorMsg r.status⟩] })
      else
        (Except.ok r, st2)

/-- The request `__get` builds: a GET with
`headers or self.__get_headers()` (`requests` follows redirects on GET
by default). -/
def getReq (st : CrawlerState) (url : String) (headers : Option HDict) : HttpRequest :=
  { method := Method.GET
    url := url
    headers := pyDictOr headers (get_headers st.user_agent none)
    body := none
    jsonData := none
    allowRedirects := some true }

/-- The request `__post` builds: a POST with
`headers or self.__get_headers()`, the `data`/`json` payloads and the
`allow_redirects` argument passed straight through. -/
def postReq (st : CrawlerState) (url : String) (headers : Option HDict)
    (data : Option String) (json_data : Option JsonValue)
    (allow_redirects : Option Bool) : HttpRequest :=
  { method := Method.POST
    url := url
    headers := pyDictOr headers (get_headers st.user_agent none)
    body := data
    jsonData := json_data
    allowRedirects := allow_redirects }

/-- `CoupangPartnersCrawler.__get`. -/
def crawler_get (server : Server) (st : CrawlerState) (url : String)
    (headers : Option HDict) : Except CrawlerError HttpResponse × CrawlerState :=
  doRequest server st (getReq st url headers)

/-- `CoupangPartnersCrawler.__post`. -/
def crawler_post (server : Server) (st : CrawlerState) (url : String)
    (headers : Option HDict) (data : Option String) (json_data : Option JsonValue)
    (allow_redirects : Option Bool) : Except CrawlerError HttpResponse × CrawlerState :=
  doRequest server st (postReq st url headers data json_data allow_redirects)

/-- Python `repr` of the nullable token, used in the debug log line. -/
def pyOptRepr : Option String → String
  | none => "None"
  | some s => s

/-- `CoupangPartnersCrawler.login`: GET the login page, POST the
form-encoded credentials with redirects followed, GET the post-login
endpoint, then read the `AFATK` cookie into `self.token` and return
`self.token is not None`. -/
def login (server : Server) (st : CrawlerState) :
    Except CrawlerError Bool × CrawlerState :=
  match crawler_get server st LOGIN_URL none with
  | (Except.error e, st1) => (Except.error e, st1)
  | (Except.ok _, st1) =>
    let headers := get_headers st1.user_agent
      (some [("Content-Type", some "application/x-www-form-urlencoded; charset=UTF-8")])
    let data := urlencode [("email", st1.username), ("password", st1.password)]
    match crawler_post server st1 LOGIN_PROCESS_URL (some headers) (some data) none (some true) with
    | (Except.error e, st2) => (Except.error e, st2)
    | (Except.ok _, st2) =>
      match crawler_get server st2 POSTLOGIN_URL none with
      | (Except.error e, st3) => (Except.error e, st3)
      | (Except.ok _, st3) =>
        let tok := get_token st3
        let st4 : CrawlerState := { st3 with
          token := tok
          log := st3.log ++ [⟨LogLevel.debug, "Token: " ++ pyOptRepr tok⟩] }
        (Except.ok tok.isSome, st4)

/-- Indexing `j[k]` on a parsed JSON value: a `KeyError` if the key is
missing or the value is not an object. -/
def jsonIndex (j : JsonValue) (k : String) : Except CrawlerError JsonValue :=
  match j with
  | JsonValue.obj fields =>
      match dictGet fields k with
      | some v => Except.ok v
      | none => Except.error (CrawlerError.keyError k)
  | _ => Except.error (CrawlerError.keyError k)

/-- The JSON search filter `search_keyword` serialises into the body. -/
def searchPayload (keyword : String) : JsonValue :=
  JsonValue.obj [("filter", JsonValue.str keyword),
                 ("page", JsonValue.obj [("pageNumber", JsonValue.num 0),
                                         ("size", JsonValue.num 36)])]

/-- `CoupangPartnersCrawler.search_keyword`: POST the serialised filter
with the `X-Token` header, then return `response.json()['data']['products']`. -/
def search_keyword (server : Server) (st : CrawlerState) (keyword : String) :
    Except CrawlerError JsonValue × CrawlerState :=
  let headers := get_headers st.user_agent
    (some [("Content-Type", some "application/json;charset=UTF-8"), ("X-Token", st.token)])
  let data := jsonDumps (searchPayload keyword)
  match crawler_post server st SEARCH_URL (some headers) (some data) none none with
  | (Except.error e, st1) => (Except.error e, st1)
  | (Except.ok r, st1) =>
    match jsonIndex r.json "data" with
    | Except.error e => (Except.error e, st1)
    | Except.ok d =>
      match jsonIndex d "products" with
      | Except.error e => (Except.error e, st1)
      | Except.ok products => (Except.ok products, st1)

/-- `CoupangPartnersCrawler.get_link`: POST `\x7b'product': product\x7d` as the
`json=` payload with the `X-Token` header, then return
`response.json()['data']['shortUrl']`. -/
def get_link (server : Server) (st : CrawlerState) (product : JsonValue) :
    Except CrawlerError JsonValue × CrawlerState :=
  let headers := get_headers st.user_agent
    (some [("content-type", some "application/json;charset=UTF-8"), ("X-Token", st.token)])
  let json_data := JsonValue.obj [("product", product)]
  match crawler_post server st BANNER_URL (some headers) none (some json_data) none with
  | (Except.error e, st1) => (Except.error e, st1)
  | (Except.ok r, st1) =>
    match jsonIndex r.json "data" with
    | Except.error e => (Except.error e, st1)
    | Except.ok d =>
      match jsonIndex d "shortUrl" with
      | Except.error e => (Except.error e, st1)
      | Except.ok u => (Except.ok u, st1)

/-- The first request `login` issues: GET the login page. -/
def loginPageRequest (st : CrawlerState) : HttpRequest :=
  getReq st LOGIN_URL none

/-- The second request `login` issues: POST the form-encoded credentials
with the form content type, redirects followed. -/
def loginProcessRequest (st : CrawlerState) : HttpRequest :=
  postReq st LOGIN_PROCESS_URL
    (some (get_headers st.user_agent
      (some [("Content-Type", some "application/x-www-form-urlencoded; charset=UTF-8")])))
    (some (urlencode [("email", st.username), ("password", st.password)]))
    none (some true)

/-- The third request `login` issues: GET the post-login endpoint. -/
def postloginRequest (st : CrawlerState) : HttpRequest :=
  getReq st POSTLOGIN_URL none

/-- The single request `search_keyword` issues. -/
def searchRequest (st : CrawlerState) (keyword : String) : HttpRequest :=
  postReq st SEARCH_URL
    (some (get_headers st.user_agent
      (some [("Content-Type", some "application/json;charset=UTF-8"), ("X-Token", st.token)])))
    (some (jsonDumps (searchPayload keyword)))
    none none

/-- The single request `get_link` issues. -/
def bannerRequest (st : CrawlerState) (product : JsonValue) : HttpRequest :=
  postReq st BANNER_URL
    (some (get_headers st.user_agent
      (some [("content-type", some "application/json;charset=UTF-8"), ("X-Token", st.token)])))
    none (some (JsonValue.obj [("product", product)])) none

/-- A request the transport or `raise_for_status` rejects: either a
transport failure or a delivered response with a 4xx/5xx status. -/
def requestFails (server : Server) (req : HttpRequest) : Prop :=
  (∃ msg, server req = TransportResult.netError msg) ∨
  (∃ r, server req = TransportResult.ok r ∧ 400 ≤ r.status ∧ r.status < 600)

/-! Concrete environments used to instantiate and to refute claims. -/

/-- A freshly constructed crawler. -/
def freshCrawler : CrawlerState := initCrawler "user" "pw" none

/-- A crawler that already holds a token. -/
def tokCrawler : CrawlerState := { freshCrawler with token := some "abc123" }

/-- A server that answers every request with 200 and sets the `AFATK`
cookie on the post-login request. -/
def okLoginServer : Server := fun req =>
  if req.url == POSTLOGIN_URL then
    TransportResult.ok ⟨200, JsonValue.null, [("AFATK", "abc123")]⟩
  else TransportResult.ok ⟨200, JsonValue.null, []⟩

/-- A server that answers every request with 200 and never sets a cookie. -/
def noCookieServer : Server := fun _ => TransportResult.ok ⟨200, JsonValue.null, []⟩

/-- A server on which every request fails at the transport level. -/
def failServer : Server := fun _ => TransportResult.netError "connection refused"

/-- A server that answers every request with status 500. -/
def server500 : Server := fun _ => TransportResult.ok ⟨500, JsonValue.null, []⟩

/-- One search result object. -/
def oneProduct : JsonValue := JsonValue.obj [("id", JsonValue.num 1)]

/-- A server whose search response carries one product. -/
def searchOkServer : Server := fun _ =>
  TransportResult.ok
    ⟨200, JsonValue.obj [("data", JsonValue.obj [("products", JsonValue.arr [oneProduct])])], []⟩

/-- A server whose link response carries a short url. -/
def linkOkServer : Server := fun _ =>
  TransportResult.ok
    ⟨200, JsonValue.obj [("data", JsonValue.obj [("shortUrl", JsonValue.str "https://link.coupang.com/a/x")])], []⟩

/-- A server that answers with status 302 (a non-2xx status that
`raise_for_status` accepts) and a well-shaped body. -/
def server302 : Server := fun _ =>
  TransportResult.ok
    ⟨302, JsonValue.obj [("data", JsonValue.obj [("products", JsonValue.arr [])])], []⟩

/-- A server whose 200 response lacks the `data` key. -/
def serverNoData : Server := fun _ =>
  TransportResult.ok ⟨200, JsonValue.obj [("status", JsonValue.str "ok")], []⟩

/-- Thirty-seven empty product objects. -/
def products37 : List JsonValue := List.replicate 37 (JsonValue.obj [])

/-- A server whose search response carries 37 products. -/
def server37 : Server := fun _ =>
  TransportResult.ok
    ⟨200, JsonValue.obj [("data", JsonValue.obj [("products", JsonValue.arr products37)])], []⟩

/-!
The cookie-aware transport.  `requests.Session` attaches the
accumulated cookie jar to every outgoing request (and folds every
response's cookies back into the jar), so the server really observes
the jar as well as the request the client code builds.  The
per-exchange claims are about what the client constructs and how it
processes responses, so `Server` leaves the jar implicit; claims about
state shared between calls need the jar visible to the server, which
`CookieServer` makes explicit.  The client-side code modelled is the
same in both transports.
-/

/-- A server that also observes the cookie jar the session attaches to
the outgoing request. -/
abbrev CookieServer := List (String × String) → HttpRequest → TransportResult

/-- The shared request path under the cookie-aware transport: identical
to `doRequest` except that the session's current jar is handed to the
server, as `requests.Session` sends it on the wire. -/
def doRequestC (server : CookieServer) (st : CrawlerState) (req : HttpRequest) :
    Except CrawlerError HttpResponse × CrawlerState :=
  let st1 : CrawlerState := { st with sent := st.sent ++ [req] }
  match server st.cookies req with
  | TransportResult.netError msg =>
      (Except.error (CrawlerError.requestException msg),
       { st1 with log := st1.log ++
           [⟨LogLevel.error, methodLabel req.method ++ " request failed: " ++ msg⟩] })
  | TransportResult.ok r =>
      let st2 : CrawlerState := { st1 with cookies := st1.cookies ++ r.setCookies }
      if 400 ≤ r.status ∧ r.status < 600 then
        (Except.error (CrawlerError.requestException (httpErrorMsg r.status)),
         { st2 with log := st2.log ++
             [⟨LogLevel.error, methodLabel req.method ++ " request failed: " ++ httpErrorMsg r.status⟩] })
      else
        (Except.ok r, st2)

/-- `CoupangPartnersCrawler.__post` under the cookie-aware transport. -/
def crawler_postC (server : CookieServer) (st : CrawlerState) (url : String)
    (headers : Option HDict) (data : Option String) (json_data : Option JsonValue)
    (allow_redirects : Option Bool) : Except CrawlerError HttpResponse × CrawlerState :=
  doRequestC server st (postReq st url headers data json_data allow_redirects)

/-- `CoupangPartnersCrawler.search_keyword` under the cookie-aware
transport; the client-side code is exactly that of `search_keyword`. -/
def search_keywordC (server : CookieServer) (st : CrawlerState) (keyword : String) :
    Except CrawlerError JsonValue × CrawlerState :=
  let headers := get_headers st.user_agent
    (some [("Content-Type", some "application/json;charset=UTF-8"), ("X-Token", st.token)])
  let data := jsonDumps (searchPayload keyword)
  match crawler_postC server st SEARCH_URL (some headers) (some data) none none with
  | (Except.error e, st1) => (Except.error e, st1)
  | (Except.ok r, st1) =>
    match jsonIndex r.json "data" with
    | Except.error e => (Except.error e, st1)
    | Except.ok d =>
      match jsonIndex d "products" with
      | Except.error e => (Except.error e, st1)
      | Except.ok products => (Except.ok products, st1)

/-- A server whose search response depends on the cookies the session
sends: on a jar without the `seen` cookie it returns no products and
sets `seen=1`; once the jar carries `seen` it returns one product. -/
def cookieMarkingServer : CookieServer := fun jar _ =>
  match dictGet jar "seen" with
  | none =>
      TransportResult.ok
        ⟨200, JsonValue.obj [("data", JsonValue.obj [("products", JsonValue.arr [])])],
         [("seen", "1")]⟩
  | some _ =>
      TransportResult.ok
        ⟨200, JsonValue.obj [("data", JsonValue.obj [("products", JsonValue.arr [oneProduct])])], []⟩

/-- A cookie-aware server with a fixed one-product search response that
never sets cookies. -/
def searchOkCookieServer : CookieServer := fun _ _ =>
  TransportResult.ok
    ⟨200, JsonValue.obj [("data", JsonValue.obj [("products", JsonValue.arr [oneProduct])])], []⟩

/-! Equation lemmas restating each operation in terms of its named
requests; each holds definitionally. -/

lemma login_def (server : Server) (st : CrawlerState) :
    login server st =
      match doRequest server st (loginPageRequest st) with
      | (Except.error e, st1) => (Except.error e, st1)
      | (Except.ok _, st1) =>
        match doRequest server st1 (loginProcessRequest st1) with
        | (Except.error e, st2) => (Except.error e, st2)
        | (Except.ok _, st2) =>
          match doRequest server st2 (postloginRequest st2) with
          | (Except.error e, st3) => (Except.error e, st3)
          | (Except.ok _, st3) =>
            (Except.ok (get_token st3).isSome,
             { st3 with token := get_token st3
                        log := st3.log ++
                          [⟨LogLevel.debug, "Token: " ++ pyOptRepr (get_token st3)⟩] }) :=
  rfl

lemma search_keyword_def (server : Server) (st : CrawlerState) (keyword : String) :
    search_keyword server st keyword =
      match doRequest server st (searchRequest st keyword) with
      | (Except.error e, st1) => (Except.error e, st1)
      | (Except.ok r, st1) =>
        match jsonIndex r.json "data" with
        | Except.error e => (Except.error e, st1)
        | Except.ok d =>
          match jsonIndex d "products" with
          | Except.error e => (Except.error e, st1)
          | Except.ok products => (Except.ok products, st1) :=
  rfl

lemma get_link_def (server : Server) (st : CrawlerState) (product : JsonValue) :
    get_link server st product =
      match doRequest server st (bannerRequest st product) with
      | (Except.error e, st1) => (Except.error e, st1)
      | (Except.ok r, st1) =>
        match jsonIndex r.json "data" with
        | Except.error e => (Except.error e, st1)
        | Except.ok d =>
          match jsonIndex d "shortUrl" with
          | Except.error e => (Except.error e, st1)
          | Except.ok u => (Except.ok u, st1) :=
  rfl

/-! Behaviour of the shared request path in its three cases. -/

lemma doRequest_ok (server : Server) (st : CrawlerState) (req : HttpRequest)
    (r : HttpResponse) (h : server req = TransportResult.ok r)
    (g : ¬(400 ≤ r.status ∧ r.status < 600)) :
    doRequest server st req =
      (Except.ok r,
       { st with cookies := st.cookies ++ r.setCookies, sent := st.sent ++ [req] }) := by
  unfold doRequest
  rw [h]
  simp [g]

lemma doRequest_badStatus (server : Server) (st : CrawlerState) (req : HttpRequest)
    (r : HttpResponse) (h : server req = TransportResult.ok r)
    (g : 400 ≤ r.status ∧ r.status < 600) :
    doRequest server st req =
      (Except.error (CrawlerError.requestException (httpErrorMsg r.status)),
       { st with cookies := st.cookies ++ r.setCookies
                 sent := st.sent ++ [req]
                 log := st.log ++
                   [⟨LogLevel.error,
                     methodLabel req.method ++ " request failed: " ++ httpErrorMsg r.status⟩] }) := by
  unfold doRequest
  rw [h]
  simp [g]

lemma doRequest_netError (server : Server) (st : CrawlerState) (req : HttpRequest)
    (msg : String) (h : server req = TransportResult.netError msg) :
    doRequest server st req =
      (Except.error (CrawlerError.requestException msg),
       { st with sent := st.sent ++ [req]
                 log := st.log ++
                   [⟨LogLevel.error,
                     methodLabel req.method ++ " request failed: " ++ msg⟩] }) := by
  unfold doRequest
  rw [h]

/-! Generic helper lemmas. -/

lemma dictGet_append {α : Type} (a b : List (String × α)) (k : String) :
    dictGet (a ++ b) k = (dictGet b k).or (dictGet a k) := by
  unfold dictGet
  rw [List.reverse_append, List.find?_append]
  cases b.reverse.find? (fun p => p.1 == k) <;> rfl

lemma errorCount_append (a b : List LogEntry) :
    errorCount (a ++ b) = errorCount a + errorCount b := by
  unfold errorCount
  rw [List.filter_append, List.length_append]

lemma doRequest_preserves (server : Server) (st : CrawlerState) (req : HttpRequest) :
    (doRequest server st req).2.token = st.token ∧
    (doRequest server st req).2.user_agent = st.user_agent ∧
    (doRequest server st req).2.username = st.username ∧
    (doRequest server st req).2.password = st.password := by
  unfold doRequest
  rcases h : server req with r | msg
  · dsimp only
    split <;> exact ⟨rfl, rfl, rfl, rfl⟩
  · exact ⟨rfl, rfl, rfl, rfl⟩

lemma doRequest_fst_congr (server : Server) (st st2 : CrawlerState) (req : HttpRequest) :
    (doRequest server st req).1 = (doRequest server st2 req).1 := by
  unfold doRequest
  rcases h : server req with r | msg
  · dsimp only
    by_cases hs : 400 ≤ r.status ∧ r.status < 600
    · simp [hs]
    · simp [hs]
  · rfl

lemma doRequest_fail_parts (server : Server) (st : CrawlerState) (req : HttpRequest)
    (h : requestFails server req) :
    (∃ e, (doRequest server st req).1 = Except.error e) ∧
    (∃ m, (doRequest server st req).2.log = st.log ++ [⟨LogLevel.error, m⟩]) ∧
    (doRequest server st req).2.sent = st.sent ++ [req] := by
  rcases h with ⟨msg, hm⟩ | ⟨r, hr, hs⟩
  · rw [doRequest_netError server st req msg hm]
    exact ⟨⟨_, rfl⟩, ⟨_, rfl⟩, rfl⟩
  · rw [doRequest_badStatus server st req r hr hs]
    exact ⟨⟨_, rfl⟩, ⟨_, rfl⟩, rfl⟩

/-! Characterisation of each operation on a fully successful exchange. -/

lemma login_ok_eq (server : Server) (st : CrawlerState) (r1 r2 r3 : HttpResponse)
    (h1 : server (loginPageRequest st) = TransportResult.ok r1)
    (g1 : ¬(400 ≤ r1.status ∧ r1.status < 600))
    (h2 : server (loginProcessRequest st) = TransportResult.ok r2)
    (g2 : ¬(400 ≤ r2.status ∧ r2.status < 600))
    (h3 : server (postloginRequest st) = TransportResult.ok r3)
    (g3 : ¬(400 ≤ r3.status ∧ r3.status < 600)) :
    login server st =
      (Except.ok (dictGet (st.cookies ++ r1.setCookies ++ r2.setCookies ++ r3.setCookies) "AFATK").isSome,
       { st with
           cookies := st.cookies ++ r1.setCookies ++ r2.setCookies ++ r3.setCookies
           token := dictGet (st.cookies ++ r1.setCookies ++ r2.setCookies ++ r3.setCookies) "AFATK"
           log := st.log ++
             [⟨LogLevel.debug,
               "Token: " ++ pyOptRepr (dictGet (st.cookies ++ r1.setCookies ++ r2.setCookies ++ r3.setCookies) "AFATK")⟩]
           sent := st.sent ++ [loginPageRequest st, loginProcessRequest st, postloginRequest st] }) := by
  rw [login_def, doRequest_ok server st (loginPageRequest st) r1 h1 g1]
  dsimp only
  set st1 : CrawlerState :=
    { st with cookies := st.cookies ++ r1.setCookies
              sent := st.sent ++ [loginPageRequest st] } with hst1
  rw [doRequest_ok server st1 (loginProcessRequest st1) r2 h2 g2]
  dsimp only
  set st2 : CrawlerState :=
    { st1 with cookies := st1.cookies ++ r2.setCookies
               sent := st1.sent ++ [loginProcessRequest st1] } with hst2
  rw [doRequest_ok server st2 (postloginRequest st2) r3 h3 g3]
  dsimp only
  rw [hst2, hst1]
  simp only [List.append_assoc]
  rfl

lemma search_keyword_ok_eq (server : Server) (st : CrawlerState) (k : String)
    (r : HttpResponse)
    (h : server (searchRequest st k) = TransportResult.ok r)
    (g : ¬(400 ≤ r.status ∧ r.status < 600)) :
    search_keyword server st k =
      ((jsonIndex r.json "data").bind (fun d => jsonIndex d "products"),
       { st with cookies := st.cookies ++ r.setCookies
                 sent := st.sent ++ [searchRequest st k] }) := by
  rw [search_keyword_def, doRequest_ok server st (searchRequest st k) r h g]
  dsimp only
  rcases hjd : jsonIndex r.json "data" with e | d
  · rfl
  · dsimp only [Except.bind]
    rcases hjp : jsonIndex d "products" with e2 | ps <;> rfl

lemma get_link_ok_eq (server : Server) (st : CrawlerState) (p : JsonValue)
    (r : HttpResponse)
    (h : server (bannerRequest st p) = TransportResult.ok r)
    (g : ¬(400 ≤ r.status ∧ r.status < 600)) :
    get_link server st p =
      ((jsonIndex r.json "data").bind (fun d => jsonIndex d "shortUrl"),
       { st with cookies := st.cookies ++ r.setCookies
                 sent := st.sent ++ [bannerRequest st p] }) := by
  rw [get_link_def, doRequest_ok server st (bannerRequest st p) r h g]
  dsimp only
  rcases hjd : jsonIndex r.json "data" with e | d
  · rfl
  · dsimp only [Except.bind]
    rcases hju : jsonIndex d "shortUrl" with e2 | u <;> rfl

lemma search_keyword_preserves (server : Server) (st : CrawlerState) (k : String) :
    (search_keyword server st k).2.token = st.token ∧
    (search_keyword server st k).2.user_agent = st.user_agent := by
  rw [search_keyword_def]
  have hp := doRequest_preserves server st (searchRequest st k)
  rcases hd : doRequest server st (searchRequest st k) with ⟨res, st1⟩
  rw [hd] at hp
  cases res with
  | error e => exact ⟨hp.1, hp.2.1⟩
  | ok r =>
    dsimp only
    rcases hjd : jsonIndex r.json "data" with e | d
    · exact ⟨hp.1, hp.2.1⟩
    · dsimp only
      rcases hjp : jsonIndex d "products" with e2 | ps
      · exact ⟨hp.1, hp.2.1⟩
      · exact ⟨hp.1, hp.2.1⟩

lemma searchRequest_congr (st st2 : CrawlerState) (k : String)
    (ht : st2.token = st.token) (hu : st2.user_agent = st.user_agent) :
    searchRequest st2 k = searchRequest st k := by
  simp only [searchRequest, postReq, get_headers, default_headers, pyDictOr, ht, hu]

lemma search_keyword_fst_congr (server : Server) (st st2 : CrawlerState) (k : String)
    (ht : st2.token = st.token) (hu : st2.user_agent = st.user_agent) :
    (search_keyword server st2 k).1 = (search_keyword server st k).1 := by
  rw [search_keyword_def, search_keyword_def, searchRequest_congr st st2 k ht hu]
  have hfst := doRequest_fst_congr server st2 st (searchRequest st k)
  rcases hd2 : doRequest server st2 (searchRequest st k) with ⟨res2, s2⟩
  rcases hd : doRequest server st (searchRequest st k) with ⟨res1, s1⟩
  rw [hd2, hd] at hfst
  dsimp only at hfst
  rw [hfst]
  cases res1 with
  | error e => rfl
  | ok r =>
    dsimp only
    rcases hjd : jsonIndex r.json "data" with e | d
    · rfl
    · dsimp only
      rcases hjp : jsonIndex d "products" with e2 | ps <;> rfl

/-! Claim theorems. -/

/-- Claim C8: for every custom header map, the header set used for a
request is the default header set (`User-Agent`, `accept-language`)
overridden key-by-key by the custom map — a key present in the custom
map takes its value there, and every default key absent from it still
appears with its default value. -/
theorem get_headers_merge (ua : String) (h : HDict) (k : String) :
    (∀ v, dictGet h k = some v → dictGet (get_headers ua (some h)) k = some v) ∧
    (dictGet h k = none → dictGet (get_headers ua (some h)) k = dictGet (default_headers ua) k) := by
  constructor
  · intro v hv
    show dictGet (default_headers ua ++ h) k = some v
    rw [dictGet_append, hv]
    rfl
  · intro hv
    show dictGet (default_headers ua ++ h) k = dictGet (default_headers ua) k
    rw [dictGet_append, hv]
    rfl

/-- Witness for C8 at a concrete custom map: an overridden key takes the
custom value, an untouched default key keeps its default value. -/
theorem get_headers_merge_witness :
    dictGet (get_headers "ua0" (some [("User-Agent", some "custom")])) "User-Agent" = some (some "custom") ∧
    dictGet (get_headers "ua0" (some [("User-Agent", some "custom")])) "accept-language" =
      dictGet (default_headers "ua0") "accept-language" :=
  ⟨(get_headers_merge "ua0" [("User-Agent", some "custom")] "User-Agent").1 (some "custom") rfl,
   (get_headers_merge "ua0" [("User-Agent", some "custom")] "accept-language").2 rfl⟩

/-- Claim C10: if `login` raises, the stored token keeps the value it had
before the call — the token is assigned only after all three requests
succeed. -/
theorem login_error_preserves_token (server : Server) (st : CrawlerState)
    (e : CrawlerError) (h : (login server st).1 = Except.error e) :
    (login server st).2.token = st.token := by
  rw [login_def] at h ⊢
  have p1 := doRequest_preserves server st (loginPageRequest st)
  rcases hd1 : doRequest server st (loginPageRequest st) with ⟨res1, st1⟩
  rw [hd1] at p1 h
  cases res1 with
  | error e1 => exact p1.1
  | ok r1 =>
    dsimp only at h ⊢
    have p2 := doRequest_preserves server st1 (loginProcessRequest st1)
    rcases hd2 : doRequest server st1 (loginProcessRequest st1) with ⟨res2, st2⟩
    rw [hd2] at p2 h
    cases res2 with
    | error e2 => exact p2.1.trans p1.1
    | ok r2 =>
      dsimp only at h ⊢
      have p3 := doRequest_preserves server st2 (postloginRequest st2)
      rcases hd3 : doRequest server st2 (postloginRequest st2) with ⟨res3, st3⟩
      rw [hd3] at p3 h
      cases res3 with
      | error e3 => exact (p3.1.trans p2.1).trans p1.1
      | ok r3 => exact Except.noConfusion h

/-- Witness for C10: on a transport-failing server, a previously stored
token survives the failed re-login. -/
theorem login_error_preserves_token_witness :
    (login failServer tokCrawler).2.token = some "abc123" :=
  login_error_preserves_token failServer tokCrawler
    (CrawlerError.requestException "connection refused") rfl

/-! Lemmas for the cookie-aware transport.  The cookie-blind transport
is the special case of a server that ignores the jar, definitionally. -/

lemma search_keywordC_def (server : CookieServer) (st : CrawlerState) (keyword : String) :
    search_keywordC server st keyword =
      match doRequestC server st (searchRequest st keyword) with
      | (Except.error e, st1) => (Except.error e, st1)
      | (Except.ok r, st1) =>
        match jsonIndex r.json "data" with
        | Except.error e => (Except.error e, st1)
        | Except.ok d =>
          match jsonIndex d "products" with
          | Except.error e => (Except.error e, st1)
          | Except.ok products => (Except.ok products, st1) :=
  rfl

lemma doRequestC_cookie_blind (server : Server) (st : CrawlerState) (req : HttpRequest) :
    doRequestC (fun _ q => server q) st req = doRequest server st req :=
  rfl

lemma search_keywordC_cookie_blind (server : Server) (st : CrawlerState) (k : String) :
    search_keywordC (fun _ q => server q) st k = search_keyword server st k :=
  rfl

lemma doRequestC_preserves (server : CookieServer) (st : CrawlerState) (req : HttpRequest) :
    (doRequestC server st req).2.token = st.token ∧
    (doRequestC server st req).2.user_agent = st.user_agent := by
  unfold doRequestC
  rcases h : server st.cookies req with r | msg
  · dsimp only
    split <;> exact ⟨rfl, rfl⟩
  · exact ⟨rfl, rfl⟩

lemma doRequestC_fst_congr (server : CookieServer) (st st2 : CrawlerState)
    (req : HttpRequest) (hc : st2.cookies = st.cookies) :
    (doRequestC server st2 req).1 = (doRequestC server st req).1 := by
  unfold doRequestC
  rw [hc]
  rcases h : server st.cookies req with r | msg
  · dsimp only
    by_cases hs : 400 ≤ r.status ∧ r.status < 600
    · simp [hs]
    · simp [hs]
  · rfl

lemma search_keywordC_preserves (server : CookieServer) (st : CrawlerState) (k : String) :
    (search_keywordC server st k).2.token = st.token ∧
    (search_keywordC server st k).2.user_agent = st.user_agent := by
  rw [search_keywordC_def]
  have hp := doRequestC_preserves server st (searchRequest st k)
  rcases hd : doRequestC server st (searchRequest st k) with ⟨res, st1⟩
  rw [hd] at hp
  cases res with
  | error e => exact ⟨hp.1, hp.2⟩
  | ok r =>
    dsimp only
    rcases hjd : jsonIndex r.json "data" with e | d
    · exact ⟨hp.1, hp.2⟩
    · dsimp only
      rcases hjp : jsonIndex d "products" with e2 | ps
      · exact ⟨hp.1, hp.2⟩
      · exact ⟨hp.1, hp.2⟩

lemma search_keywordC_fst_congr (server : CookieServer) (st st2 : CrawlerState) (k : String)
    (ht : st2.token = st.token) (hu : st2.user_agent = st.user_agent)
    (hc : st2.cookies = st.cookies) :
    (search_keywordC server st2 k).1 = (search_keywordC server st k).1 := by
  rw [search_keywordC_def, search_keywordC_def, searchRequest_congr st st2 k ht hu]
  have hfst := doRequestC_fst_congr server st st2 (searchRequest st k) hc
  rcases hd2 : doRequestC server st2 (searchRequest st k) with ⟨res2, s2⟩
  rcases hd : doRequestC server st (searchRequest st k) with ⟨res1, s1⟩
  rw [hd2, hd] at hfst
  dsimp only at hfst
  rw [hfst]
  cases res1 with
  | error e => rfl
  | ok r =>
    dsimp only
    rcases hjd : jsonIndex r.json "data" with e | d
    · rfl
    · dsimp only
      rcases hjp : jsonIndex d "products" with e2 | ps <;> rfl

/-- Counterexample to claim C9 as stated: the session cookie jar is
per-call state that `requests.Session` attaches to every request, and
it can make the second of two otherwise identical `search_keyword`
calls differ.  Against an unchanged server whose search response
depends on the sent cookies, the first call returns no products and
sets a cookie, the second returns one product — with the AuthToken
unchanged between the calls. -/
theorem search_keyword_cookie_state_cex :
    (search_keywordC cookieMarkingServer tokCrawler "shoes").1 =
      Except.ok (JsonValue.arr []) ∧
    (search_keywordC cookieMarkingServer
        (search_keywordC cookieMarkingServer tokCrawler "shoes").2 "shoes").1 =
      Except.ok (JsonValue.arr [oneProduct]) ∧
    (search_keywordC cookieMarkingServer tokCrawler "shoes").2.token = tokCrawler.token ∧
    (JsonValue.arr [] : JsonValue) ≠ JsonValue.arr [oneProduct] :=
  ⟨rfl, rfl, rfl, by simp [oneProduct]⟩

/-- Claim C9 as amended: two consecutive `search_keyword` calls with an
unchanged AuthToken and an unchanged server response function return
equal results whenever the first call leaves the session cookie jar
unchanged (in particular, whenever its response sets no cookies).  The
client keeps no local cache; the cookie jar the session attaches to
each request is the one piece of per-call state that can make the
second result differ. -/
theorem search_keywordC_idempotent_of_jar_unchanged (server : CookieServer)
    (st : CrawlerState) (k : String)
    (hjar : (search_keywordC server st k).2.cookies = st.cookies) :
    (search_keywordC server (search_keywordC server st k).2 k).1 =
      (search_keywordC server st k).1 :=
  search_keywordC_fst_congr server st (search_keywordC server st k).2 k
    (search_keywordC_preserves server st k).1
    (search_keywordC_preserves server st k).2 hjar

/-- Witness for the amended C9: a cookie-free one-product server gives
equal results on two consecutive searches. -/
theorem search_keywordC_idempotent_of_jar_unchanged_witness :
    (search_keywordC searchOkCookieServer
        (search_keywordC searchOkCookieServer tokCrawler "shoes").2 "shoes").1 =
      (search_keywordC searchOkCookieServer tokCrawler "shoes").1 :=
  search_keywordC_idempotent_of_jar_unchanged searchOkCookieServer tokCrawler "shoes" rfl

/-- Claim C1: `login` performs exactly three HTTP exchanges in order —
GET the login page, POST the form-encoded `email`/`password` body with
the form content type and redirects followed, GET the post-login
endpoint — then reads the `AFATK` cookie from the accumulated jar,
stores it as the token, and returns true exactly when that cookie is
present. -/
theorem login_three_exchanges (server : Server) (st : CrawlerState)
    (r1 r2 r3 : HttpResponse)
    (h1 : server (loginPageRequest st) = TransportResult.ok r1)
    (g1 : ¬(400 ≤ r1.status ∧ r1.status < 600))
    (h2 : server (loginProcessRequest st) = TransportResult.ok r2)
    (g2 : ¬(400 ≤ r2.status ∧ r2.status < 600))
    (h3 : server (postloginRequest st) = TransportResult.ok r3)
    (g3 : ¬(400 ≤ r3.status ∧ r3.status < 600)) :
    (login server st).2.sent =
      st.sent ++ [loginPageRequest st, loginProcessRequest st, postloginRequest st] ∧
    (loginPageRequest st).method = Method.GET ∧
    (loginPageRequest st).url = LOGIN_URL ∧
    (loginProcessRequest st).method = Method.POST ∧
    (loginProcessRequest st).url = LOGIN_PROCESS_URL ∧
    (loginProcessRequest st).body =
      some (urlencode [("email", st.username), ("password", st.password)]) ∧
    headerGet (loginProcessRequest st).headers "Content-Type" =
      some "application/x-www-form-urlencoded; charset=UTF-8" ∧
    (loginProcessRequest st).allowRedirects = some true ∧
    (postloginRequest st).method = Method.GET ∧
    (postloginRequest st).url = POSTLOGIN_URL ∧
    (login server st).2.token =
      dictGet (st.cookies ++ r1.setCookies ++ r2.setCookies ++ r3.setCookies) "AFATK" ∧
    (login server st).1 =
      Except.ok (dictGet (st.cookies ++ r1.setCookies ++ r2.setCookies ++ r3.setCookies) "AFATK").isSome := by
  rw [login_ok_eq server st r1 r2 r3 h1 g1 h2 g2 h3 g3]
  exact ⟨rfl, rfl, rfl, rfl, rfl, rfl, rfl, rfl, rfl, rfl, rfl, rfl⟩

/-- Witness for C1: against a server that sets `AFATK=abc123` on the
post-login request, `login` returns true and stores the token. -/
theorem login_three_exchanges_witness :
    (login okLoginServer freshCrawler).1 = Except.ok true ∧
    (login okLoginServer freshCrawler).2.token = some "abc123" := by
  have h := login_three_exchanges okLoginServer freshCrawler
    ⟨200, JsonValue.null, []⟩ ⟨200, JsonValue.null, []⟩ ⟨200, JsonValue.null, [("AFATK", "abc123")]⟩
    rfl (by decide) rfl (by decide) rfl (by decide)
  exact ⟨h.2.2.2.2.2.2.2.2.2.2.2, h.2.2.2.2.2.2.2.2.2.2.1⟩

/-- Claim C2: when all three login requests succeed but no `AFATK`
cookie is present, `login` returns false with a null token instead of
raising, and logs no error. -/
theorem login_missing_cookie_false (server : Server) (st : CrawlerState)
    (r1 r2 r3 : HttpResponse)
    (h1 : server (loginPageRequest st) = TransportResult.ok r1)
    (g1 : ¬(400 ≤ r1.status ∧ r1.status < 600))
    (h2 : server (loginProcessRequest st) = TransportResult.ok r2)
    (g2 : ¬(400 ≤ r2.status ∧ r2.status < 600))
    (h3 : server (postloginRequest st) = TransportResult.ok r3)
    (g3 : ¬(400 ≤ r3.status ∧ r3.status < 600))
    (hafatk : dictGet (st.cookies ++ r1.setCookies ++ r2.setCookies ++ r3.setCookies) "AFATK" = none) :
    (login server st).1 = Except.ok false ∧
    (login server st).2.token = none ∧
    errorCount (login server st).2.log = errorCount st.log := by
  rw [login_ok_eq server st r1 r2 r3 h1 g1 h2 g2 h3 g3]
  refine ⟨?_, ?_, ?_⟩
  · dsimp only
    rw [hafatk]
    rfl
  · exact hafatk
  · dsimp only
    rw [errorCount_append]
    rfl
  -- the appended record is the single debug line, which carries no
  -- error severity, so the error count is unchanged

/-- Witness for C2: against a server that never sets cookies, the fully
successful login run returns false with a null token and no error log. -/
theorem login_missing_cookie_false_witness :
    (login noCookieServer freshCrawler).1 = Except.ok false ∧
    (login noCookieServer freshCrawler).2.token = none ∧
    errorCount (login noCookieServer freshCrawler).2.log = errorCount freshCrawler.log :=
  login_missing_cookie_false noCookieServer freshCrawler
    ⟨200, JsonValue.null, []⟩ ⟨200, JsonValue.null, []⟩ ⟨200, JsonValue.null, []⟩
    rfl (by decide) rfl (by decide) rfl (by decide) rfl

/-- Claim C3: `search_keyword` sends a single POST whose body is the
serialised `\x7bfilter: keyword, page: \x7bpageNumber: 0, size: 36\x7d\x7d` object
with the `X-Token` header set to the client's current token, and returns
the `data.products` field of the response JSON unmodified, whatever it
is. -/
theorem search_keyword_request_and_result (server : Server) (st : CrawlerState)
    (k t : String) (r : HttpResponse) (d products : JsonValue)
    (htok : st.token = some t)
    (h : server (searchRequest st k) = TransportResult.ok r)
    (g : ¬(400 ≤ r.status ∧ r.status < 600))
    (hd : jsonIndex r.json "data" = Except.ok d)
    (hp : jsonIndex d "products" = Except.ok products) :
    (search_keyword server st k).1 = Except.ok products ∧
    (search_keyword server st k).2.sent = st.sent ++ [searchRequest st k] ∧
    (searchRequest st k).method = Method.POST ∧
    (searchRequest st k).url = SEARCH_URL ∧
    (searchRequest st k).body = some (jsonDumps (searchPayload k)) ∧
    (searchRequest st k).jsonData = none ∧
    headerGet (searchRequest st k).headers "X-Token" = some t := by
  rw [search_keyword_ok_eq server st k r h g]
  refine ⟨?_, rfl, rfl, rfl, rfl, rfl, ?_⟩
  · dsimp only
    rw [hd]
    exact hp
  · exact htok

/-- Witness for C3 on a one-product server response. -/
theorem search_keyword_request_and_result_witness :
    (search_keyword searchOkServer tokCrawler "shoes").1 = Except.ok (JsonValue.arr [oneProduct]) ∧
    headerGet (searchRequest tokCrawler "shoes").headers "X-Token" = some "abc123" := by
  have h := search_keyword_request_and_result searchOkServer tokCrawler "shoes" "abc123"
    ⟨200, JsonValue.obj [("data", JsonValue.obj [("products", JsonValue.arr [oneProduct])])], []⟩
    (JsonValue.obj [("products", JsonValue.arr [oneProduct])]) (JsonValue.arr [oneProduct])
    rfl rfl (by decide) rfl rfl
  exact ⟨h.1, h.2.2.2.2.2.2⟩

/-- Claim C4: `get_link` sends a single POST whose JSON payload is
exactly `\x7bproduct: p\x7d` with the `X-Token` header set to the client's
current token, and returns the `data.shortUrl` field of the response
JSON. -/
theorem get_link_request_and_result (server : Server) (st : CrawlerState)
    (t : String) (p : JsonValue) (r : HttpResponse) (d u : JsonValue)
    (htok : st.token = some t)
    (h : server (bannerRequest st p) = TransportResult.ok r)
    (g : ¬(400 ≤ r.status ∧ r.status < 600))
    (hd : jsonIndex r.json "data" = Except.ok d)
    (hu : jsonIndex d "shortUrl" = Except.ok u) :
    (get_link server st p).1 = Except.ok u ∧
    (get_link server st p).2.sent = st.sent ++ [bannerRequest st p] ∧
    (bannerRequest st p).method = Method.POST ∧
    (bannerRequest st p).url = BANNER_URL ∧
    (bannerRequest st p).jsonData = some (JsonValue.obj [("product", p)]) ∧
    (bannerRequest st p).body = none ∧
    headerGet (bannerRequest st p).headers "X-Token" = some t := by
  rw [get_link_ok_eq server st p r h g]
  refine ⟨?_, rfl, rfl, rfl, rfl, rfl, ?_⟩
  · dsimp only
    rw [hd]
    exact hu
  · exact htok

/-- Witness for C4 on a concrete short-url response. -/
theorem get_link_request_and_result_witness :
    (get_link linkOkServer tokCrawler oneProduct).1 =
      Except.ok (JsonValue.str "https://link.coupang.com/a/x") ∧
    (bannerRequest tokCrawler oneProduct).jsonData =
      some (JsonValue.obj [("product", oneProduct)]) := by
  have h := get_link_request_and_result linkOkServer tokCrawler "abc123" oneProduct
    ⟨200, JsonValue.obj [("data", JsonValue.obj [("shortUrl", JsonValue.str "https://link.coupang.com/a/x")])], []⟩
    (JsonValue.obj [("shortUrl", JsonValue.str "https://link.coupang.com/a/x")])
    (JsonValue.str "https://link.coupang.com/a/x")
    rfl rfl (by decide) rfl rfl
  exact ⟨h.1, h.2.2.2.2.1⟩

/-- Counterexample to claim C5 as stated: a non-2xx status does not in
general cause an error log and a raise.  `raise_for_status` accepts a
302 (on the search POST redirects are not followed, since
`allow_redirects=None` is falsy), so the call completes with no error
log and no exception. -/
theorem non2xx_not_raised_not_logged_cex :
    (search_keyword server302 tokCrawler "shoes").1 = Except.ok (JsonValue.arr []) ∧
    (search_keyword server302 tokCrawler "shoes").2.log = [] ∧
    (match server302 (searchRequest tokCrawler "shoes") with
     | TransportResult.ok r => r.status
     | TransportResult.netError _ => 0) = 302 :=
  ⟨rfl, rfl, rfl⟩

/-- Claim C5 as amended: a 4xx/5xx status or transport failure on a
request causes exactly one error-severity log entry, the error is
re-raised to the caller, and the request is issued exactly once (no
retry).  Every request of every operation goes through `doRequest`
(the body shared by `__get` and `__post`); the operation-level parts
restate this for the single request of `search_keyword` and `get_link`
and for the first request of `login` (its second and third requests
follow the identical path). -/
theorem failed_request_logged_once_no_retry (server : Server) (st : CrawlerState)
    (req : HttpRequest) (k : String) (p : JsonValue)
    (h : requestFails server req) :
    ((∃ e, (doRequest server st req).1 = Except.error e) ∧
     errorCount (doRequest server st req).2.log = errorCount st.log + 1 ∧
     (doRequest server st req).2.sent = st.sent ++ [req]) ∧
    (requestFails server (searchRequest st k) →
     (∃ e, (search_keyword server st k).1 = Except.error e ∧
           (doRequest server st (searchRequest st k)).1 = Except.error e) ∧
     errorCount (search_keyword server st k).2.log = errorCount st.log + 1 ∧
     (search_keyword server st k).2.sent = st.sent ++ [searchRequest st k]) ∧
    (requestFails server (bannerRequest st p) →
     (∃ e, (get_link server st p).1 = Except.error e ∧
           (doRequest server st (bannerRequest st p)).1 = Except.error e) ∧
     errorCount (get_link server st p).2.log = errorCount st.log + 1 ∧
     (get_link server st p).2.sent = st.sent ++ [bannerRequest st p]) ∧
    (requestFails server (loginPageRequest st) →
     (∃ e, (login server st).1 = Except.error e ∧
           (doRequest server st (loginPageRequest st)).1 = Except.error e) ∧
     errorCount (login server st).2.log = errorCount st.log + 1 ∧
     (login server st).2.sent = st.sent ++ [loginPageRequest st]) := by
  refine ⟨?_, ?_, ?_, ?_⟩
  · obtain ⟨⟨e, he⟩, ⟨m, hm⟩, hs⟩ := doRequest_fail_parts server st req h
    refine ⟨⟨e, he⟩, ?_, hs⟩
    rw [hm, errorCount_append]
    rfl
  · intro hf
    rcases hf with ⟨msg, hm2⟩ | ⟨r, hr, hs2⟩
    · rw [search_keyword_def, doRequest_netError server st (searchRequest st k) msg hm2]
      dsimp only
      exact ⟨⟨CrawlerError.requestException msg, rfl, rfl⟩,
             by rw [errorCount_append]; rfl, rfl⟩
    · rw [search_keyword_def, doRequest_badStatus server st (searchRequest st k) r hr hs2]
      dsimp only
      exact ⟨⟨CrawlerError.requestException (httpErrorMsg r.status), rfl, rfl⟩,
             by rw [errorCount_append]; rfl, rfl⟩
  · intro hf
    rcases hf with ⟨msg, hm2⟩ | ⟨r, hr, hs2⟩
    · rw [get_link_def, doRequest_netError server st (bannerRequest st p) msg hm2]
      dsimp only
      exact ⟨⟨CrawlerError.requestException msg, rfl, rfl⟩,
             by rw [errorCount_append]; rfl, rfl⟩
    · rw [get_link_def, doRequest_badStatus server st (bannerRequest st p) r hr hs2]
      dsimp only
      exact ⟨⟨CrawlerError.requestException (httpErrorMsg r.status), rfl, rfl⟩,
             by rw [errorCount_append]; rfl, rfl⟩
  · intro hf
    rcases hf with ⟨msg, hm2⟩ | ⟨r, hr, hs2⟩
    · rw [login_def, doRequest_netError server st (loginPageRequest st) msg hm2]
      dsimp only
      exact ⟨⟨CrawlerError.requestException msg, rfl, rfl⟩,
             by rw [errorCount_append]; rfl, rfl⟩
    · rw [login_def, doRequest_badStatus server st (loginPageRequest st) r hr hs2]
      dsimp only
      exact ⟨⟨CrawlerError.requestException (httpErrorMsg r.status), rfl, rfl⟩,
             by rw [errorCount_append]; rfl, rfl⟩

/-- Witness for the amended C5: on a server that answers 500, a search
logs exactly one error record and issues exactly one request. -/
theorem failed_request_logged_once_no_retry_witness :
    errorCount (search_keyword server500 tokCrawler "shoes").2.log =
      errorCount tokCrawler.log + 1 ∧
    (search_keyword server500 tokCrawler "shoes").2.sent =
      tokCrawler.sent ++ [searchRequest tokCrawler "shoes"] := by
  have h := failed_request_logged_once_no_retry server500 tokCrawler
    (searchRequest tokCrawler "shoes") "shoes" JsonValue.null
    (Or.inr ⟨⟨500, JsonValue.null, []⟩, rfl, by decide⟩)
  have hb := h.2.1 (Or.inr ⟨⟨500, JsonValue.null, []⟩, rfl, by decide⟩)
  exact ⟨hb.2.1, hb.2.2⟩

/-- Counterexample to claim C6 as stated: a missing `data` key makes
`search_keyword` propagate a `KeyError`, but nothing is logged — the
`try/except` in `__post` only covers the request itself, not the JSON
indexing that happens in the caller. -/
theorem shape_error_unlogged_cex :
    (search_keyword serverNoData tokCrawler "shoes").1 =
      Except.error (CrawlerError.keyError "data") ∧
    (search_keyword serverNoData tokCrawler "shoes").2.log = [] ∧
    errorCount (search_keyword serverNoData tokCrawler "shoes").2.log = 0 :=
  ⟨rfl, rfl, rfl⟩

/-- Claim C6 as amended: a response whose JSON lacks the expected shape
makes the resulting shape error propagate to the caller unchanged, but —
unlike a transport error — it is not logged: the log is exactly what it
was before the call. -/
theorem shape_error_propagated_not_logged (server : Server) (st : CrawlerState)
    (k : String) (p : JsonValue) (r r2 : HttpResponse)
    (h : server (searchRequest st k) = TransportResult.ok r)
    (g : ¬(400 ≤ r.status ∧ r.status < 600))
    (h2 : server (bannerRequest st p) = TransportResult.ok r2)
    (g2 : ¬(400 ≤ r2.status ∧ r2.status < 600)) :
    (∀ e, (jsonIndex r.json "data").bind (fun d => jsonIndex d "products") = Except.error e →
      (search_keyword server st k).1 = Except.error e ∧
      (search_keyword server st k).2.log = st.log) ∧
    (∀ e, (jsonIndex r2.json "data").bind (fun d => jsonIndex d "shortUrl") = Except.error e →
      (get_link server st p).1 = Except.error e ∧
      (get_link server st p).2.log = st.log) := by
  constructor
  · intro e he
    rw [search_keyword_ok_eq server st k r h g]
    exact ⟨he, rfl⟩
  · intro e he
    rw [get_link_ok_eq server st p r2 h2 g2]
    exact ⟨he, rfl⟩

/-- Witness for the amended C6 on a response without a `data` key. -/
theorem shape_error_propagated_not_logged_witness :
    (search_keyword serverNoData tokCrawler "shoes").1 =
      Except.error (CrawlerError.keyError "data") ∧
    (search_keyword serverNoData tokCrawler "shoes").2.log = tokCrawler.log := by
  have h := shape_error_propagated_not_logged serverNoData tokCrawler "shoes" JsonValue.null
    ⟨200, JsonValue.obj [("status", JsonValue.str "ok")], []⟩
    ⟨200, JsonValue.obj [("status", JsonValue.str "ok")], []⟩
    rfl (by decide) rfl (by decide)
  exact h.1 (CrawlerError.keyError "data") rfl

/-- Counterexample to claim C7 as stated: the code passes `data.products`
through unfiltered, so a server that returns 37 products makes
`search_keyword` return a sequence longer than the requested page size
36. -/
theorem search_over_page_size_cex :
    (search_keyword server37 tokCrawler "신발").1 = Except.ok (JsonValue.arr products37) ∧
    products37.length = 37 ∧
    ¬(products37.length ≤ 36) :=
  ⟨rfl, rfl, by decide⟩

/-- Claim C7 as amended: `search_keyword` returns exactly the server's
`data.products` list, so whenever the server honours the requested page
size — returning at most 36 mapping-shaped elements — the result is a
sequence of length at most 36 whose elements are mapping-shaped. -/
theorem search_result_bounded (server : Server) (st : CrawlerState) (k : String)
    (r : HttpResponse) (d : JsonValue) (l : List JsonValue)
    (h : server (searchRequest st k) = TransportResult.ok r)
    (g : ¬(400 ≤ r.status ∧ r.status < 600))
    (hd : jsonIndex r.json "data" = Except.ok d)
    (hp : jsonIndex d "products" = Except.ok (JsonValue.arr l))
    (hlen : l.length ≤ 36)
    (hshape : ∀ x ∈ l, ∃ fs, x = JsonValue.obj fs) :
    ∃ l2, (search_keyword server st k).1 = Except.ok (JsonValue.arr l2) ∧
      l2.length ≤ 36 ∧ ∀ x ∈ l2, ∃ fs, x = JsonValue.obj fs := by
  refine ⟨l, ?_, hlen, hshape⟩
  rw [search_keyword_ok_eq server st k r h g]
  dsimp only
  rw [hd]
  exact hp

/-- Witness for the amended C7 on a one-product server response. -/
theorem search_result_bounded_witness :
    ∃ l2, (search_keyword searchOkServer tokCrawler "shoes").1 = Except.ok (JsonValue.arr l2) ∧
      l2.length ≤ 36 ∧ ∀ x ∈ l2, ∃ fs, x = JsonValue.obj fs :=
  search_result_bounded searchOkServer tokCrawler "shoes"
    ⟨200, JsonValue.obj [("data", JsonValue.obj [("products", JsonValue.arr [oneProduct])])], []⟩
    (JsonValue.obj [("products", JsonValue.arr [oneProduct])]) [oneProduct]
    rfl (by decide) rfl rfl (by decide)
    (by
      intro x hx
      rw [List.mem_singleton] at hx
      exact ⟨[("id", JsonValue.num 1)], hx⟩)
